import Mathlib

/-!
Shallow embedding of the market-making strategies in `autotrader.py` and
`Samson/pyready_trader_go/autotrader_1.py`.

Conventions of the embedding:

* Python floats are modelled as exact rationals (`ℚ`).  The only transcendental
  functions the source applies, `math.exp` and `np.std`, are modelled by
  explicit function parameters `E : ℚ → ℚ` (for `x ↦ e^x`) and
  `S : List ℚ → ℚ` (for the population standard deviation): every theorem
  quantifies over them (or assumes only facts that the real functions satisfy,
  such as `E 0 = 1`), and concrete evaluations instantiate them on inputs where
  the real value is rational and equal to the instantiation.
* Wall-clock reads (`time.time()`) are modelled by a rational timestamp carried
  on each inbound event; all reads within one handler invocation yield that
  timestamp.
* The Python `set`s `self.bids` / `self.asks` are modelled as `Finset ℕ`, the
  id counter `itertools.count(1)` as a `next_id` field starting at 1.
* Fields of the Python object that are written only for logging and never read
  by any handler (`trade_type`, `last_trade`, `hedge_price`, `position_cost`,
  `bid_ask_spreads`, `diff_spread`, `history`, `cancel_signal_bid`,
  `cancel_signal_ask`, `self.time`) are omitted from the state.
-/

namespace RTG

/-- Order side; `buy` is the venue API's `Side.BUY` (= `Side.BID`) and `sell`
is `Side.SELL` (= `Side.ASK`). -/
inductive Side where
  | buy : Side
  | sell : Side
deriving DecidableEq, Repr

/-- Outbound commands the strategy can issue: `send_insert_order`,
`send_cancel_order` and `send_hedge_order` (lifespan is always
`GOOD_FOR_DAY` and is omitted). -/
inductive Command where
  | insert (id : ℕ) (side : Side) (price : ℤ) (volume : ℤ) : Command
  | cancel (id : ℕ) : Command
  | hedge (id : ℕ) (side : Side) (price : ℤ) (volume : ℤ) : Command
deriving DecidableEq, Repr

/-- The two instruments of the venue. -/
inductive Instr where
  | future : Instr
  | etf : Instr
deriving DecidableEq, Repr

/-- Modelled from the spec: the venue's minimum-bid sentinel from the external
`ready_trader_go` module (the module is not under `src/`; the spec calls it
"the minimum representable price floor").  Its exact value is irrelevant to
every claim. -/
def MINIMUM_BID : ℤ := 1

/-- Modelled from the spec: the venue's maximum-ask sentinel from the external
`ready_trader_go` module ("the maximum representable price ceiling").  Its
exact value is irrelevant to every claim. -/
def MAXIMUM_ASK : ℤ := 2 ^ 31 - 1

/-- Constant `TICK_SIZE_IN_CENTS = 100` (both files). -/
def TICK_SIZE_IN_CENTS : ℚ := 100

/-- Constant `MIN_BID_NEAREST_TICK = (MINIMUM_BID + TICK_SIZE_IN_CENTS) // TICK_SIZE_IN_CENTS * TICK_SIZE_IN_CENTS`. -/
def MIN_BID_NEAREST_TICK : ℤ := (MINIMUM_BID + 100) / 100 * 100

/-- Constant `MAX_ASK_NEAREST_TICK = MAXIMUM_ASK // TICK_SIZE_IN_CENTS * TICK_SIZE_IN_CENTS`. -/
def MAX_ASK_NEAREST_TICK : ℤ := MAXIMUM_ASK / 100 * 100

/-- Constant `LOT_SIZE = 50` of `autotrader.py`. -/
def LOT_SIZE : ℚ := 50

/-- Constant `WAIT_TIME = 0.25` of `autotrader.py`. -/
def WAIT_TIME : ℚ := 1 / 4

/-- Constant `UPDATE_TIME = 0.25` of `autotrader.py`. -/
def UPDATE_TIME : ℚ := 1 / 4

/-- Constant `IMBAL_THRESHOLD = 0.2` of `autotrader.py`. -/
def IMBAL_THRESHOLD : ℚ := 1 / 5

/-- Constant `INV_SCALAR = -0.05` (both files). -/
def INV_SCALAR : ℚ := -(1 / 20)

/-- Constant `ROLLING_WNDW = 4` of `autotrader.py`. -/
def ROLLING_WNDW : ℕ := 4

/-- Constant `VOL1 = 50` of `autotrader.py`. -/
def VOL1 : ℚ := 50

/-- Constant `VOL2 = 100` of `autotrader.py`. -/
def VOL2 : ℚ := 100

/-- Function `roundup(x) = int(math.ceil(x / 100.)) * 100` (both files). -/
def roundup (x : ℚ) : ℤ := ⌈x / 100⌉ * 100

/-- Function `rounddown(x) = int(math.floor(x / 100.)) * 100` (both files). -/
def rounddown (x : ℚ) : ℤ := ⌊x / 100⌋ * 100

/-- Python's built-in `round`: round half to even (banker's rounding), as used
by `autotrader.py` for the quote volumes. -/
def pyRound (x : ℚ) : ℤ :=
  if x - ⌊x⌋ = 1 / 2 then (if ⌊x⌋ % 2 = 0 then ⌊x⌋ else ⌊x⌋ + 1) else ⌊x + 1 / 2⌋

/-- Function `ts_append(value, ts)` of `autotrader.py`: a zero observation repeats the
last stored value when the window is non-empty, a non-zero observation is
appended, and a zero observation on an empty window appends `0`. -/
def tsAppend (v : ℚ) (ts : List ℚ) : List ℚ :=
  if v = 0 then
    match ts with
    | [] => [0]
    | _ => ts ++ [ts.getLastD 0]
  else ts ++ [v]

/-- The two exponentially weighted volume sums of the source's
`for i in range(min(len(bid_volumes), len(ask_volumes)))` loop: working on the
zipped volume lists (whose length is exactly that `min`), the pair
`(V_bid, V_ask) = (Σ exp(-0.5*i)*bid_volumes[i], Σ exp(-0.5*i)*ask_volumes[i])`,
with `E` standing for `math.exp` and `i` the index of the first element. -/
def wsums (E : ℚ → ℚ) (i : ℕ) : List (ℚ × ℚ) → ℚ × ℚ
  | [] => (0, 0)
  | (bv, av) :: rest =>
      (E (-(1 / 2) * (i : ℚ)) * bv + (wsums E (i + 1) rest).1,
       E (-(1 / 2) * (i : ℚ)) * av + (wsums E (i + 1) rest).2)

/-- Function `weighted_mid(bid_volumes, bid_prices, ask_volumes, ask_prices)` of
`autotrader.py` (the identical computation is inlined in `autotrader_1.py`):
`I = V_bid/(V_bid+V_ask)` when the denominator is non-zero else `0`, and
`theo = I*ask_prices[0] + (1-I)*bid_prices[0]`. -/
def weighted_mid (E : ℚ → ℚ) (bid_volumes bid_prices ask_volumes ask_prices : List ℚ) : ℚ :=
  let V := wsums E 0 (bid_volumes.zip ask_volumes)
  let I := if V.1 + V.2 ≠ 0 then V.1 / (V.1 + V.2) else 0
  I * ask_prices.getD 0 0 + (1 - I) * bid_prices.getD 0 0

/-- The imbalance `(V_bid - V_ask)/(V_bid + V_ask)` (0 when the denominator is
0) computed in the FUTURE branch of `on_order_book_update_message`. -/
def imbalanceOf (E : ℚ → ℚ) (bid_volumes ask_volumes : List ℚ) : ℚ :=
  let V := wsums E 0 (bid_volumes.zip ask_volumes)
  if V.1 + V.2 ≠ 0 then (V.1 - V.2) / (V.1 + V.2) else 0

/-- The spread half-width selection of `autotrader.py` lines 194-202: reads
the volatility value it is given and returns `(K1, K2)`. -/
def spreadPair (v : ℚ) : ℚ × ℚ :=
  if v < VOL1 then (4, 4) else if v < VOL2 then (6, 6) else (8, 8)

/-- The quote-price computation of `autotrader.py` lines 203-214; returns
`(new_ask_price, new_bid_price)`. -/
def newQuotePrices (K1 K2 theo imbal : ℚ) : ℤ × ℤ :=
  if imbal > IMBAL_THRESHOLD then
    (roundup (theo + K2 * TICK_SIZE_IN_CENTS), rounddown (theo - K1 / 2 * TICK_SIZE_IN_CENTS))
  else if imbal < -IMBAL_THRESHOLD then
    (roundup (theo + K1 / 2 * TICK_SIZE_IN_CENTS), rounddown (theo - K2 * TICK_SIZE_IN_CENTS))
  else
    (roundup (theo + K1 / 2 * TICK_SIZE_IN_CENTS), rounddown (theo - K1 / 2 * TICK_SIZE_IN_CENTS))

/-- The quote-volume computation of `autotrader.py` lines 215-220; returns
`(new_bid_volume, new_ask_volume)`.  `E` stands for `math.exp`. -/
def newVolumes (E : ℚ → ℚ) (position : ℤ) : ℤ × ℤ :=
  if position ≥ 0 then
    (pyRound (LOT_SIZE * E (INV_SCALAR * (position : ℚ))), pyRound LOT_SIZE)
  else
    (pyRound LOT_SIZE, pyRound (LOT_SIZE * E (-INV_SCALAR * (position : ℚ))))

/-- The quote-price computation of `autotrader_1.py` lines 112-120, with that
file's constants `K1 = 4`, `K2 = 8`, `IMBAL_THRESHOLD = 0.5` baked in as in
the source; returns `(new_ask_price, new_bid_price)`. -/
def newQuotePrices1 (theo imbal : ℚ) : ℤ × ℤ :=
  if imbal > (1 / 2 : ℚ) then
    (roundup (theo + (8 : ℚ) / 2 * TICK_SIZE_IN_CENTS), rounddown theo)
  else if imbal < -(1 / 2 : ℚ) then
    (roundup theo, rounddown (theo - (8 : ℚ) / 2 * TICK_SIZE_IN_CENTS))
  else
    (roundup (theo + (4 : ℚ) / 2 * TICK_SIZE_IN_CENTS), rounddown (theo - (4 : ℚ) / 2 * TICK_SIZE_IN_CENTS))

/-- The quote-volume computation of `autotrader_1.py` lines 121-126
(`LOT_SIZE = 30`, `math.floor` instead of `round`); returns
`(new_bid_volume, new_ask_volume)`. -/
def newVolumes1 (E : ℚ → ℚ) (position : ℤ) : ℤ × ℤ :=
  if position ≥ 0 then
    (⌊(30 : ℚ) * E (INV_SCALAR * (position : ℚ))⌋, ⌊(30 : ℚ)⌋)
  else
    (⌊(30 : ℚ)⌋, ⌊(30 : ℚ) * E (-INV_SCALAR * (position : ℚ))⌋)

/-- Population variance of a list of rationals.  `np.std l > c` (for `c ≥ 0`)
holds exactly when `popVar l > c ^ 2`; the variance is rational where the
standard deviation is not, so claims about the window's standard deviation are
stated through it. -/
def popVar (l : List ℚ) : ℚ :=
  let m := l.sum / (l.length : ℚ)
  (l.map (fun x => (x - m) ^ 2)).sum / (l.length : ℚ)

/-- The mutable fields of the `AutoTrader` object of `autotrader.py` that some
handler reads or writes (logging-only fields omitted, see the file header). -/
structure State where
  next_id : ℕ
  bids : Finset ℕ
  asks : Finset ℕ
  bid_id : ℕ
  ask_id : ℕ
  bid_price : ℤ
  ask_price : ℤ
  position : ℤ
  bid_qtime : ℚ
  ask_qtime : ℚ
  bid_etime : ℚ
  ask_etime : ℚ
  bid_volume : ℤ
  ask_volume : ℤ
  theo_F : ℚ
  theo_E : ℚ
  imbal : ℚ
  FBid : ℚ
  FAsk : ℚ
  EBid : ℚ
  EAsk : ℚ
  mid_F : ℚ
  mid_E : ℚ
  BA_F : ℚ
  BA_E : ℚ
  wpr_F : List ℚ
  wpr_E : List ℚ
  vol_F : ℚ
  vol_E : ℚ
  N_F : ℕ
  N_E : ℕ
  signal : ℕ

/-- The `__init__` state: counter at 1, empty id sets, all numeric fields 0
(the construction-time `time.time()` is taken as the time origin 0). -/
def initState : State where
  next_id := 1
  bids := ∅
  asks := ∅
  bid_id := 0
  ask_id := 0
  bid_price := 0
  ask_price := 0
  position := 0
  bid_qtime := 0
  ask_qtime := 0
  bid_etime := 0
  ask_etime := 0
  bid_volume := 0
  ask_volume := 0
  theo_F := 0
  theo_E := 0
  imbal := 0
  FBid := 0
  FAsk := 0
  EBid := 0
  EAsk := 0
  mid_F := 0
  mid_E := 0
  BA_F := 0
  BA_E := 0
  wpr_F := []
  wpr_E := []
  vol_F := 0
  vol_E := 0
  N_F := 0
  N_E := 0
  signal := 0

/-- Evaluation helper for `roundup`. -/
theorem roundup_eq (x : ℚ) (z : ℤ) (h1 : (z : ℚ) - 1 < x / 100) (h2 : x / 100 ≤ (z : ℚ)) :
    roundup x = z * 100 := by
  rw [roundup, Int.ceil_eq_iff.mpr ⟨h1, h2⟩]

/-- Evaluation helper for `rounddown`. -/
theorem rounddown_eq (x : ℚ) (z : ℤ) (h1 : (z : ℚ) ≤ x / 100) (h2 : x / 100 < (z : ℚ) + 1) :
    rounddown x = z * 100 := by
  rw [rounddown, Int.floor_eq_iff.mpr ⟨h1, h2⟩]

/-- Evaluation helper for `pyRound` on non-half inputs. -/
theorem pyRound_eq (x : ℚ) (z : ℤ) (hmid : x - ⌊x⌋ ≠ 1 / 2)
    (h1 : (z : ℚ) ≤ x + 1 / 2) (h2 : x + 1 / 2 < (z : ℚ) + 1) : pyRound x = z := by
  rw [pyRound, if_neg hmid, Int.floor_eq_iff.mpr ⟨h1, h2⟩]

/-- The `on_order_filled_message` handler (identical in both files): a fill on
a tracked bid id raises the position and sends a sell hedge at
`MIN_BID_NEAREST_TICK`; a fill on a tracked ask id lowers the position and
sends a buy hedge at `MAX_ASK_NEAREST_TICK`; the hedge id is drawn from the
shared counter.  Any other id does nothing. -/
def onFilled (s : State) (client_order_id : ℕ) (volume : ℤ) : State × List Command :=
  if client_order_id ∈ s.bids then
    ({ s with position := s.position + volume, next_id := s.next_id + 1 },
     [Command.hedge s.next_id Side.sell MIN_BID_NEAREST_TICK volume])
  else if client_order_id ∈ s.asks then
    ({ s with position := s.position - volume, next_id := s.next_id + 1 },
     [Command.hedge s.next_id Side.buy MAX_ASK_NEAREST_TICK volume])
  else (s, [])

/-- The `on_order_status_message` handler (identical in both files): on zero
remaining volume, a match against the bid (resp. ask) slot clears that slot and
stamps its terminal time, and the id is then discarded from both id sets
unconditionally; a non-zero remaining volume does nothing.  `now` models the
handler-time `time.time()` read. -/
def onStatus (s : State) (client_order_id : ℕ) (_fill_volume remaining_volume _fees : ℤ)
    (now : ℚ) : State × List Command :=
  if remaining_volume = 0 then
    let s1 :=
      if client_order_id = s.bid_id then { s with bid_id := 0, bid_etime := now }
      else if client_order_id = s.ask_id then { s with ask_id := 0, ask_etime := now }
      else s
    ({ s1 with bids := s1.bids.erase client_order_id, asks := s1.asks.erase client_order_id }, [])
  else (s, [])

/-- The `on_error_message` handler (identical in both files): an error whose id
is non-zero and tracked in either id set is forwarded to
`on_order_status_message(id, 0, 0, 0)`; otherwise nothing happens. -/
def onError (s : State) (client_order_id : ℕ) (now : ℚ) : State × List Command :=
  if client_order_id ≠ 0 ∧ (client_order_id ∈ s.bids ∨ client_order_id ∈ s.asks) then
    onStatus s client_order_id 0 0 0 now
  else (s, [])

/-- The insert-bid block of `autotrader.py` (repeated at lines 225-234,
254-263, 285-294, 320-329): fires when `new_bid_price not in (self.bid_price, 0)`. -/
def tryBid (now : ℚ) (nbp nbv : ℤ) (s : State) : State × List Command :=
  if nbp ≠ s.bid_price ∧ nbp ≠ 0 then
    ({ s with
        bid_id := s.next_id
        next_id := s.next_id + 1
        bid_price := nbp
        bids := insert s.next_id s.bids
        bid_qtime := now
        bid_volume := nbv },
     [Command.insert s.next_id Side.buy nbp nbv])
  else (s, [])

/-- The insert-ask block of `autotrader.py` (repeated at lines 236-244,
265-273, 296-304, 331-339): fires when `new_ask_price not in (self.ask_price, 0)`. -/
def tryAsk (now : ℚ) (nap nav : ℤ) (s : State) : State × List Command :=
  if nap ≠ s.ask_price ∧ nap ≠ 0 then
    ({ s with
        ask_id := s.next_id
        next_id := s.next_id + 1
        ask_price := nap
        asks := insert s.next_id s.asks
        ask_qtime := now
        ask_volume := nav },
     [Command.insert s.next_id Side.sell nap nav])
  else (s, [])

/-- The insert-bid block followed by the insert-ask block, as every branch of
the order-management code runs them. -/
def tryBoth (now : ℚ) (nbp nap nbv nav : ℤ) (s : State) : State × List Command :=
  let b := tryBid now nbp nbv s
  let a := tryAsk now nap nav b.1
  (a.1, b.2 ++ a.2)

/-- The order-management block of `autotrader.py` lines 222-341, evaluated on
each ETF book update once the policy has produced target prices and volumes:
four branches on which slots hold a live id, with the one-sided branches gated
on `WAIT_TIME` since the missing side's terminal time and the two-sided branch
gated on `UPDATE_TIME` since the earlier of the two placements.  Cancels are
sent before the corresponding slot is cleared. -/
def quoteStep (now : ℚ) (nbp nap nbv nav : ℤ) (s : State) : State × List Command :=
  if s.bid_id = 0 ∧ s.ask_id = 0 then
    tryBoth now nbp nap nbv nav s
  else if s.bid_id = 0 ∧ s.ask_id ≠ 0 then
    if now - s.bid_etime > WAIT_TIME then
      let r := tryBoth now nbp nap nbv nav { s with ask_id := 0 }
      (r.1, Command.cancel s.ask_id :: r.2)
    else (s, [])
  else if s.bid_id ≠ 0 ∧ s.ask_id = 0 then
    if now - s.ask_etime > WAIT_TIME then
      let r := tryBoth now nbp nap nbv nav { s with bid_id := 0 }
      (r.1, Command.cancel s.bid_id :: r.2)
    else (s, [])
  else
    if now - min s.ask_qtime s.bid_qtime > UPDATE_TIME then
      let r := tryBoth now nbp nap nbv nav { s with bid_id := 0, ask_id := 0 }
      (r.1, Command.cancel s.bid_id :: Command.cancel s.ask_id :: r.2)
    else (s, [])

/-- The FUTURE branch of `on_order_book_update_message` of `autotrader.py`
(lines 148-171): stores the weighted mid as `theo_F`, the imbalance, the
top-of-book scalars, and maintains the rolling window `wpr_F`, storing the
window's standard deviation into `vol_F`.  `S` stands for `np.std`. -/
def futureUpdate (E : ℚ → ℚ) (S : List ℚ → ℚ)
    (ask_prices ask_volumes bid_prices bid_volumes : List ℚ) (s : State) : State :=
  let wp := weighted_mid E bid_volumes bid_prices ask_volumes ask_prices
  let s := { s with
    imbal := imbalanceOf E bid_volumes ask_volumes
    FBid := bid_prices.getD 0 0
    FAsk := ask_prices.getD 0 0
    mid_F := (bid_prices.getD 0 0 + ask_prices.getD 0 0) / 2
    BA_F := ask_prices.getD 0 0 - bid_prices.getD 0 0
    theo_F := wp }
  let s := if s.signal = 0 ∧ wp ≠ 0 then { s with signal := 1 } else s
  if s.signal = 1 then
    let s := { s with N_F := s.N_F + 1, wpr_F := tsAppend wp s.wpr_F }
    if s.N_F > ROLLING_WNDW then
      let w := s.wpr_F.drop 1
      { s with wpr_F := w, vol_F := S w }
    else s
  else s

/-- The signal part of the ETF branch of `on_order_book_update_message` of
`autotrader.py` (lines 173-190): stores the ETF weighted mid and top-of-book
scalars and maintains the rolling window `wpr_E` — storing that window's
standard deviation into `vol_F` (sic: the source writes `self.vol_F`, not
`self.vol_E`, at line 190). -/
def etfSignalUpdate (E : ℚ → ℚ) (S : List ℚ → ℚ)
    (ask_prices ask_volumes bid_prices bid_volumes : List ℚ) (s : State) : State :=
  let wp := weighted_mid E bid_volumes bid_prices ask_volumes ask_prices
  let s := { s with
    EBid := bid_prices.getD 0 0
    EAsk := ask_prices.getD 0 0
    mid_E := (bid_prices.getD 0 0 + ask_prices.getD 0 0) / 2
    BA_E := ask_prices.getD 0 0 - bid_prices.getD 0 0
    theo_E := wp }
  let s := if s.signal = 0 ∧ wp ≠ 0 then { s with signal := 1 } else s
  if s.signal = 1 then
    let s := { s with N_E := s.N_E + 1, wpr_E := tsAppend wp s.wpr_E }
    if s.N_E > ROLLING_WNDW then
      let w := s.wpr_E.drop 1
      { s with wpr_E := w, vol_F := S w }
    else s
  else s

/-- Handler `on_order_book_update_message` of `autotrader.py`: the FUTURE branch only
updates the signal state; the ETF branch updates the ETF signal state and then,
when `theo_F` is non-zero, derives `(K1, K2)` from `vol_E`, target prices from
`(theo_F, imbal)`, target volumes from the position, and runs the
order-management block. -/
def onBookUpdate (E : ℚ → ℚ) (S : List ℚ → ℚ) (instrument : Instr)
    (ask_prices ask_volumes bid_prices bid_volumes : List ℚ) (now : ℚ)
    (s : State) : State × List Command :=
  match instrument with
  | Instr.future => (futureUpdate E S ask_prices ask_volumes bid_prices bid_volumes s, [])
  | Instr.etf =>
      let s1 := etfSignalUpdate E S ask_prices ask_volumes bid_prices bid_volumes s
      if s1.theo_F ≠ 0 then
        let K := spreadPair s1.vol_E
        let P := newQuotePrices K.1 K.2 s1.theo_F s1.imbal
        let V := newVolumes E s1.position
        quoteStep now P.2 P.1 V.1 V.2 s1
      else (s1, [])

/-- Inbound events, each carrying the wall-clock timestamp `now` at which it is
handled (`onTradeTicks` and `onHedgeFilled` are pure no-ops in the source and
carry no payload the handlers read). -/
inductive Event where
  | bookUpdate (instrument : Instr) (seq : ℕ)
      (ask_prices ask_volumes bid_prices bid_volumes : List ℚ) (now : ℚ) : Event
  | tradeTicks : Event
  | orderFilled (client_order_id : ℕ) (price volume : ℤ) : Event
  | orderStatus (client_order_id : ℕ) (fill_volume remaining_volume fees : ℤ) (now : ℚ) : Event
  | hedgeFilled : Event
  | error (client_order_id : ℕ) (now : ℚ) : Event

/-- One event dispatched to the matching handler of `autotrader.py`. -/
def step (E : ℚ → ℚ) (S : List ℚ → ℚ) (s : State) : Event → State × List Command
  | Event.bookUpdate instrument _ ap av bp bv now => onBookUpdate E S instrument ap av bp bv now s
  | Event.tradeTicks => (s, [])
  | Event.orderFilled id _ v => onFilled s id v
  | Event.orderStatus id fv rv fees now => onStatus s id fv rv fees now
  | Event.hedgeFilled => (s, [])
  | Event.error id now => onError s id now

/-- Process a list of events from state `s`, accumulating every issued
command in order. -/
def runFrom (E : ℚ → ℚ) (S : List ℚ → ℚ) (s : State) : List Event → State × List Command
  | [] => (s, [])
  | e :: es =>
      ((runFrom E S (step E S s e).1 es).1,
       (step E S s e).2 ++ (runFrom E S (step E S s e).1 es).2)

/-- Process a list of events from the freshly initialised trader, accumulating
every issued command. -/
def run (E : ℚ → ℚ) (S : List ℚ → ℚ) (events : List Event) : State × List Command :=
  runFrom E S initState events

/-- Stand-in instantiation for `math.exp` used in closed evaluations: every
trace below only ever applies `E` at `0` (all deeper book levels carry zero
volume, and the position is `0` whenever volumes are computed), where the real
exponential also yields `1`. -/
def Eone : ℚ → ℚ := fun _ => 1

/-- Stand-in instantiation for `np.std` used in closed evaluations: the value
written to `vol_F` is never read by any handler, so the choice is irrelevant. -/
def Szero : List ℚ → ℚ := fun _ => 0

/-- C3 counterexample: with all ten volumes zero and best prices 100 (bid) and
200 (ask), the code's weighted mid evaluates to the best bid 100 (because
`I = 0` in the zero-denominator guard), not to the arithmetic midpoint 150
the claim asserts.  The weight stand-in is irrelevant since every weight is
multiplied by a zero volume (see `C3_zero_guard_amended`, which holds for
every weight function). -/
theorem C3_zero_guard_counterexample :
    weighted_mid Eone [0, 0, 0, 0, 0] [100, 0, 0, 0, 0] [0, 0, 0, 0, 0] [200, 0, 0, 0, 0]
      = 100 ∧ (100 : ℚ) ≠ (1 / 2) * (100 + 200) := by
  constructor
  · norm_num [weighted_mid, wsums, Eone]
  · norm_num

/-- C3 (amended): for every snapshot whose five bid volumes and five ask
volumes are all zero, the imbalance evaluates to 0 and the weighted mid
evaluates to the best bid price `bid_prices[0]` (not the midpoint of best bid
and best ask), for every weight function `E` standing for `math.exp`. -/
theorem C3_zero_guard_amended (E : ℚ → ℚ) (bid_prices ask_prices : List ℚ) :
    imbalanceOf E [0, 0, 0, 0, 0] [0, 0, 0, 0, 0] = 0 ∧
    weighted_mid E [0, 0, 0, 0, 0] bid_prices [0, 0, 0, 0, 0] ask_prices
      = bid_prices.getD 0 0 := by
  constructor
  · norm_num [imbalanceOf, wsums]
  · norm_num [weighted_mid, wsums]

/-- C3 witness: the amended zero-guard property applied at best bid 300 and
best ask 500 (the weighted mid is the best bid 300). -/
theorem C3_zero_guard_witness :
    imbalanceOf Eone [0, 0, 0, 0, 0] [0, 0, 0, 0, 0] = 0 ∧
    weighted_mid Eone [0, 0, 0, 0, 0] [300, 0, 0, 0, 0] [0, 0, 0, 0, 0] [500, 0, 0, 0, 0]
      = 300 :=
  C3_zero_guard_amended Eone [300, 0, 0, 0, 0] [500, 0, 0, 0, 0]

/-- C2 counterexample: a fill event for an order id tracked in neither the
live-bid nor the live-ask set (here: a fill processed from the initial state)
issues no hedge command at all, contradicting "for every fill event processed,
exactly one hedge command is issued". -/
theorem C2_hedge_counterexample :
    run Eone Szero [Event.orderFilled 1 10000 5] = (initState, []) := by
  simp [run, runFrom, step, onFilled, initState]

/-- C2 (amended): for every fill event whose id is in the live-bid set,
exactly one hedge command is issued synchronously in the same handling step,
with the fill's volume, the sell side (opposite to the filled bid), priced at
the venue floor, and numbered with the next id from the shared counter, while
the net position increases by the fill volume; the mirror holds for an id in
the live-ask set (buy hedge at the venue ceiling, position decreases); a fill
whose id is in neither set changes nothing and issues nothing. -/
theorem C2_hedge_amended (s : State) (id : ℕ) (v : ℤ) :
    (id ∈ s.bids →
      onFilled s id v =
        ({ s with position := s.position + v, next_id := s.next_id + 1 },
         [Command.hedge s.next_id Side.sell MIN_BID_NEAREST_TICK v])) ∧
    (id ∉ s.bids → id ∈ s.asks →
      onFilled s id v =
        ({ s with position := s.position - v, next_id := s.next_id + 1 },
         [Command.hedge s.next_id Side.buy MAX_ASK_NEAREST_TICK v])) ∧
    (id ∉ s.bids → id ∉ s.asks → onFilled s id v = (s, [])) := by
  refine ⟨fun h => ?_, fun h1 h2 => ?_, fun h1 h2 => ?_⟩ <;>
    simp [onFilled, *]

/-- C2 witness: the amended hedge property applied at a concrete state holding
bid id 1, fill volume 7. -/
theorem C2_hedge_witness :
    (1 : ℕ) ∈ ({ initState with bids := {1} } : State).bids ∧
    onFilled { initState with bids := {1} } 1 7 =
      ({ initState with bids := {1}, position := 7, next_id := 2 },
       [Command.hedge 1 Side.sell MIN_BID_NEAREST_TICK 7]) := by
  refine ⟨by simp, ?_⟩
  have h := (C2_hedge_amended { initState with bids := {1} } 1 7).1 (by simp)
  simpa [initState] using h

/-- C6: on the concrete inputs of the spec's example scenario (`theo = 10000`,
`imbalance = 0.6` against threshold `0.5`, the `autotrader_1.py` constants
`K1 = 4`, `K2 = 8`, tick 100, `position = 0`, lot size 30) the policy of
`autotrader_1.py` computes `new_ask_price = 10400`, `new_bid_price = 10000`,
`new_bid_volume = 30` and `new_ask_volume = 30`; `E` stands for `math.exp`
with its value `1` at `0`. -/
theorem C6_example_scenario (E : ℚ → ℚ) (hE : E 0 = 1) :
    newQuotePrices1 10000 (3 / 5) = (10400, 10000) ∧ newVolumes1 E 0 = (30, 30) := by
  constructor
  · rw [newQuotePrices1, if_pos (by norm_num : (3 / 5 : ℚ) > 1 / 2)]
    norm_num [TICK_SIZE_IN_CENTS, roundup, rounddown]
  · rw [newVolumes1, if_pos (by norm_num : (0 : ℤ) ≥ 0)]
    norm_num [INV_SCALAR, hE]

/-- C6 witness: the example scenario evaluated with the constant-one stand-in
for `math.exp` (which agrees with the real exponential at the only point used,
`position = 0`). -/
theorem C6_example_scenario_witness :
    newQuotePrices1 10000 (3 / 5) = (10400, 10000) ∧ newVolumes1 Eone 0 = (30, 30) :=
  C6_example_scenario Eone rfl

/-- C10: a status event with non-zero remaining volume is a complete no-op —
the state is returned unchanged and no command is issued — and moreover no
status event of any kind changes the net position. -/
theorem C10_partial_status_frame (s : State) (id : ℕ) (fv rv fees : ℤ) (now : ℚ) :
    (rv ≠ 0 → onStatus s id fv rv fees now = (s, [])) ∧
    (onStatus s id fv rv fees now).1.position = s.position := by
  constructor
  · intro h
    simp [onStatus, h]
  · simp only [onStatus]
    split_ifs <;> simp

/-- C10 witness: the partial-fill frame property applied at the initial state
with remaining volume 3. -/
theorem C10_partial_status_frame_witness :
    onStatus initState 1 2 3 0 9 = (initState, []) ∧
    (onStatus initState 1 2 3 0 9).1.position = initState.position :=
  ⟨(C10_partial_status_frame initState 1 2 3 0 9).1 (by norm_num),
   (C10_partial_status_frame initState 1 2 3 0 9).2⟩

/-- Helper: on any zero-remaining-volume status, both live-id sets end up with
the reported id erased (whichever slot branch is taken). -/
theorem onStatus_erase (s : State) (id : ℕ) (fv fees : ℤ) (now : ℚ) :
    (onStatus s id fv 0 fees now).1.bids = s.bids.erase id ∧
    (onStatus s id fv 0 fees now).1.asks = s.asks.erase id := by
  simp only [onStatus]
  split_ifs <;> simp

/-- A concrete state in which id 1 is still tracked in the live-bid set while
the bid slot has moved on to id 3 and the ask slot to id 4 (the situation left
behind by a cancel-and-requote cycle whose terminal statuses have not arrived
yet). -/
def staleState : State := { initState with bids := {1}, bid_id := 3, ask_id := 4 }

/-- C9 counterexample: a zero-remaining-volume status for id 1, which matches
neither slot id (the bid slot holds 3 and the ask slot holds 4), still mutates
the state: id 1 is discarded from the live-bid set. -/
theorem C9_stale_status_counterexample :
    ((1 : ℕ) ≠ staleState.bid_id) ∧ ((1 : ℕ) ≠ staleState.ask_id) ∧
    (onStatus staleState 1 0 0 0 5).1 ≠ staleState := by
  refine ⟨by simp [staleState], by simp [staleState], fun h => ?_⟩
  have hb := congrArg State.bids h
  rw [(onStatus_erase staleState 1 0 0 5).1] at hb
  simp [staleState] at hb
  exact Finset.singleton_ne_empty 1 hb.symm

/-- C9 (amended): a zero-remaining-volume status whose id matches neither slot
id leaves the slots, prices, timestamps and position unchanged and issues no
command, but still discards the id from both live-id sets — so the state is
fully unchanged only when the id was tracked in neither set. -/
theorem C9_stale_status_amended (s : State) (id : ℕ) (fv fees : ℤ) (now : ℚ)
    (h1 : id ≠ s.bid_id) (h2 : id ≠ s.ask_id) :
    onStatus s id fv 0 fees now =
      ({ s with bids := s.bids.erase id, asks := s.asks.erase id }, []) := by
  simp [onStatus, h1, h2]

/-- C9 witness: the amended stale-status property applied at the
counterexample state. -/
theorem C9_stale_status_witness :
    onStatus staleState 1 0 0 0 5 =
      ({ staleState with bids := staleState.bids.erase 1, asks := staleState.asks.erase 1 }, []) :=
  C9_stale_status_amended staleState 1 0 0 5 (by simp [staleState]) (by simp [staleState])

/-- C8: an error event carrying a non-zero order id tracked in either live-id
set performs exactly the state change of the status handler applied to that id
with zero remaining volume (in particular the id is removed from both id
sets), and an error event whose id is zero or tracked in neither set leaves
the state unchanged and issues nothing. -/
theorem C8_error_equiv_status (s : State) (id : ℕ) (now : ℚ) :
    (id ≠ 0 → id ∈ s.bids ∨ id ∈ s.asks →
      onError s id now = onStatus s id 0 0 0 now ∧
      id ∉ (onError s id now).1.bids ∧ id ∉ (onError s id now).1.asks) ∧
    (id = 0 ∨ (id ∉ s.bids ∧ id ∉ s.asks) → onError s id now = (s, [])) := by
  constructor
  · intro h1 h2
    have he : onError s id now = onStatus s id 0 0 0 now := by
      simp [onError, h1, h2]
    refine ⟨he, ?_, ?_⟩ <;> rw [he]
    · rw [(onStatus_erase s id 0 0 now).1]
      exact Finset.not_mem_erase id s.bids
    · rw [(onStatus_erase s id 0 0 now).2]
      exact Finset.not_mem_erase id s.asks
  · intro h
    rcases h with h | ⟨h1, h2⟩ <;> simp [onError, *]

/-- Helper: running the insert-bid block twice with the same target bid price
and volume makes the second run a no-op — either the first run inserted (so
the quoted price now equals the target) or its guard already failed (and still
fails). -/
theorem tryBid_again (t1 t2 : ℚ) (nbp nbv : ℤ) (s : State) :
    tryBid t2 nbp nbv (tryBid t1 nbp nbv s).1 = ((tryBid t1 nbp nbv s).1, []) := by
  by_cases h : nbp ≠ s.bid_price ∧ nbp ≠ 0 <;> simp [tryBid, h]

/-- Helper: running the insert-bid block followed by the insert-ask block
twice with the same target prices and volumes makes the second round a no-op. -/
theorem tryBoth_again (t1 t2 : ℚ) (nbp nap nbv nav : ℤ) (s : State) :
    tryBoth t2 nbp nap nbv nav (tryBoth t1 nbp nap nbv nav s).1 =
      ((tryBoth t1 nbp nap nbv nav s).1, []) := by
  by_cases hb : nbp ≠ s.bid_price ∧ nbp ≠ 0 <;>
    by_cases ha : nap ≠ s.ask_price ∧ nap ≠ 0 <;>
      simp [tryBoth, tryBid, tryAsk, hb, ha]

/-- The timing gates of the order-management block, as seen from a state at
wall-clock time `t`: whichever branch the state shape selects, its gate has
not elapsed (a state with both slots empty has no gate). -/
def gatesHold (s : State) (t : ℚ) : Prop :=
  (s.bid_id = 0 ∧ s.ask_id ≠ 0 → ¬t - s.bid_etime > WAIT_TIME) ∧
  (s.bid_id ≠ 0 ∧ s.ask_id = 0 → ¬t - s.ask_etime > WAIT_TIME) ∧
  (s.bid_id ≠ 0 ∧ s.ask_id ≠ 0 → ¬t - min s.ask_qtime s.bid_qtime > UPDATE_TIME)

/-- Helper: a single order-management invocation issues no command when every
gate holds and, in case both slots are empty, the insert blocks would be
no-ops. -/
theorem quoteStep_hold (t2 : ℚ) (nbp nap nbv nav : ℤ) (s1 : State)
    (hg : gatesHold s1 t2)
    (hb : s1.bid_id = 0 ∧ s1.ask_id = 0 → tryBoth t2 nbp nap nbv nav s1 = (s1, [])) :
    (quoteStep t2 nbp nap nbv nav s1).2 = [] := by
  obtain ⟨g1, g2, g3⟩ := hg
  by_cases c1 : s1.bid_id = 0 ∧ s1.ask_id = 0
  · simp only [quoteStep, if_pos c1, hb c1]
  · by_cases c2 : s1.bid_id = 0 ∧ s1.ask_id ≠ 0
    · simp only [quoteStep, if_neg c1, if_pos c2, if_neg (g1 c2)]
    · by_cases c3 : s1.bid_id ≠ 0 ∧ s1.ask_id = 0
      · simp only [quoteStep, if_neg c1, if_neg c2, if_pos c3, if_neg (g2 c3)]
      · have hba : s1.bid_id ≠ 0 ∧ s1.ask_id ≠ 0 := by
          constructor
          · intro h
            rcases Classical.em (s1.ask_id = 0) with ha | ha
            · exact c1 ⟨h, ha⟩
            · exact c2 ⟨h, ha⟩
          · intro h
            rcases Classical.em (s1.bid_id = 0) with hb2 | hb2
            · exact c1 ⟨hb2, h⟩
            · exact c3 ⟨hb2, h⟩
        simp only [quoteStep, if_neg c1, if_neg c2, if_neg c3, if_neg (g3 hba)]

/-- C7: across two consecutive order-management invocations with the same
policy output (target bid price, ask price and volumes unchanged), if neither
timing gate has elapsed at the second invocation — the `WAIT_TIME` replace
grace for a lone resting order, the `UPDATE_TIME` requote interval when both
rest — then the second invocation issues no command at all (no insert and no
cancel). -/
theorem C7_idempotent_hold (s : State) (t1 t2 : ℚ) (nbp nap nbv nav : ℤ)
    (hg : gatesHold (quoteStep t1 nbp nap nbv nav s).1 t2) :
    (quoteStep t2 nbp nap nbv nav (quoteStep t1 nbp nap nbv nav s).1).2 = [] := by
  by_cases c1 : s.bid_id = 0 ∧ s.ask_id = 0
  · have hq : quoteStep t1 nbp nap nbv nav s = tryBoth t1 nbp nap nbv nav s := by
      simp only [quoteStep, if_pos c1]
    rw [hq] at hg ⊢
    exact quoteStep_hold t2 nbp nap nbv nav _ hg (fun _ => tryBoth_again t1 t2 nbp nap nbv nav s)
  · by_cases c2 : s.bid_id = 0 ∧ s.ask_id ≠ 0
    · by_cases gA : t1 - s.bid_etime > WAIT_TIME
      · have hq : (quoteStep t1 nbp nap nbv nav s).1 =
            (tryBoth t1 nbp nap nbv nav { s with ask_id := 0 }).1 := by
          simp only [quoteStep, if_neg c1, if_pos c2, if_pos gA]
        rw [hq] at hg ⊢
        exact quoteStep_hold t2 nbp nap nbv nav _ hg
          (fun _ => tryBoth_again t1 t2 nbp nap nbv nav { s with ask_id := 0 })
      · have hq : (quoteStep t1 nbp nap nbv nav s).1 = s := by
          simp only [quoteStep, if_neg c1, if_pos c2, if_neg gA]
        rw [hq] at hg ⊢
        exact quoteStep_hold t2 nbp nap nbv nav s hg (fun hc => absurd hc.2 c2.2)
    · by_cases c3 : s.bid_id ≠ 0 ∧ s.ask_id = 0
      · by_cases gB : t1 - s.ask_etime > WAIT_TIME
        · have hq : (quoteStep t1 nbp nap nbv nav s).1 =
              (tryBoth t1 nbp nap nbv nav { s with bid_id := 0 }).1 := by
            simp only [quoteStep, if_neg c1, if_neg c2, if_pos c3, if_pos gB]
          rw [hq] at hg ⊢
          exact quoteStep_hold t2 nbp nap nbv nav _ hg
            (fun _ => tryBoth_again t1 t2 nbp nap nbv nav { s with bid_id := 0 })
        · have hq : (quoteStep t1 nbp nap nbv nav s).1 = s := by
            simp only [quoteStep, if_neg c1, if_neg c2, if_pos c3, if_neg gB]
          rw [hq] at hg ⊢
          exact quoteStep_hold t2 nbp nap nbv nav s hg (fun hc => absurd hc.1 c3.1)
      · have hbid : s.bid_id ≠ 0 := by
          intro h
          rcases Classical.em (s.ask_id = 0) with ha | ha
          · exact c1 ⟨h, ha⟩
          · exact c2 ⟨h, ha⟩
        by_cases gC : t1 - min s.ask_qtime s.bid_qtime > UPDATE_TIME
        · have hq : (quoteStep t1 nbp nap nbv nav s).1 =
              (tryBoth t1 nbp nap nbv nav { s with bid_id := 0, ask_id := 0 }).1 := by
            simp only [quoteStep, if_neg c1, if_neg c2, if_neg c3, if_pos gC]
          rw [hq] at hg ⊢
          exact quoteStep_hold t2 nbp nap nbv nav _ hg
            (fun _ => tryBoth_again t1 t2 nbp nap nbv nav { s with bid_id := 0, ask_id := 0 })
        · have hq : (quoteStep t1 nbp nap nbv nav s).1 = s := by
            simp only [quoteStep, if_neg c1, if_neg c2, if_neg c3, if_neg gC]
          rw [hq] at hg ⊢
          exact quoteStep_hold t2 nbp nap nbv nav s hg (fun hc => absurd hc.1 hbid)

/-- C7 witness: the idempotent-hold property applied from the initial state
with an unchanged (all-zero, hence guard-failing) policy output. -/
theorem C7_idempotent_hold_witness :
    gatesHold (quoteStep 0 0 0 0 0 initState).1 0 ∧
    (quoteStep 0 0 0 0 0 (quoteStep 0 0 0 0 0 initState).1).2 = [] := by
  have hg : gatesHold (quoteStep 0 0 0 0 0 initState).1 0 := by
    simp [quoteStep, tryBoth, tryBid, tryAsk, gatesHold, initState]
  exact ⟨hg, C7_idempotent_hold initState 0 0 0 0 0 0 hg⟩

/-- Helper: the insert-bid block only ever emits a buy insert at the target
bid price and volume. -/
theorem tryBid_mem {t : ℚ} {nbp nbv : ℤ} {s : State} {c : Command}
    (h : c ∈ (tryBid t nbp nbv s).2) : c = Command.insert s.next_id Side.buy nbp nbv := by
  unfold tryBid at h
  split_ifs at h <;> simp_all

/-- Helper: the insert-ask block only ever emits a sell insert at the target
ask price and volume. -/
theorem tryAsk_mem {t : ℚ} {nap nav : ℤ} {s : State} {c : Command}
    (h : c ∈ (tryAsk t nap nav s).2) : c = Command.insert s.next_id Side.sell nap nav := by
  unfold tryAsk at h
  split_ifs at h <;> simp_all

/-- Helper: any insert emitted by the two insert blocks is either a buy at the
target bid price and volume or a sell at the target ask price and volume. -/
theorem tryBoth_insert_mem {t : ℚ} {nbp nap nbv nav : ℤ} {s : State} {id : ℕ} {sd : Side}
    {pr v : ℤ} (h : Command.insert id sd pr v ∈ (tryBoth t nbp nap nbv nav s).2) :
    (sd = Side.buy ∧ pr = nbp ∧ v = nbv) ∨ (sd = Side.sell ∧ pr = nap ∧ v = nav) := by
  unfold tryBoth at h
  rw [List.mem_append] at h
  rcases h with h | h
  · have hc := tryBid_mem h
    rw [Command.insert.injEq] at hc
    exact Or.inl ⟨hc.2.1, hc.2.2⟩
  · have hc := tryAsk_mem h
    rw [Command.insert.injEq] at hc
    exact Or.inr ⟨hc.2.1, hc.2.2⟩

/-- Helper: any insert emitted by one order-management invocation is either a
buy at the target bid price and volume or a sell at the target ask price and
volume (the other commands it can emit are cancels). -/
theorem quoteStep_insert_mem {t : ℚ} {nbp nap nbv nav : ℤ} {s : State} {id : ℕ} {sd : Side}
    {pr v : ℤ} (h : Command.insert id sd pr v ∈ (quoteStep t nbp nap nbv nav s).2) :
    (sd = Side.buy ∧ pr = nbp ∧ v = nbv) ∨ (sd = Side.sell ∧ pr = nap ∧ v = nav) := by
  unfold quoteStep at h
  split_ifs at h <;>
    (try simp only [List.mem_cons, List.not_mem_nil, reduceCtorEq, false_or] at h) <;>
    exact tryBoth_insert_mem h

/-- Helper: the ETF signal update touches only the ETF top-of-book scalars,
`theo_E`, the window `wpr_E` with its counter, and `vol_F`; in particular the
pricing inputs `theo_F`, `imbal`, `vol_E` and `position` are unchanged. -/
theorem etfSignalUpdate_frame (E : ℚ → ℚ) (S : List ℚ → ℚ) (ap av bp bv : List ℚ) (s : State) :
    (etfSignalUpdate E S ap av bp bv s).theo_F = s.theo_F ∧
    (etfSignalUpdate E S ap av bp bv s).imbal = s.imbal ∧
    (etfSignalUpdate E S ap av bp bv s).vol_E = s.vol_E ∧
    (etfSignalUpdate E S ap av bp bv s).position = s.position := by
  unfold etfSignalUpdate
  dsimp only
  split_ifs <;> simp

/-- C5: on an ETF book update with a positive theoretical price, every insert
command the handler emits is priced by the imbalance-skew formulas of the
source with the regime pair drawn from `spreadPair`: above the positive
threshold the ask is pushed a full `K2` ticks out and the bid tightened to
`K1/2` ticks; below the negative threshold the mirror; otherwise the
symmetric `K1/2` pair (tick = 100). -/
theorem C5_skew_prices (E : ℚ → ℚ) (S : List ℚ → ℚ) (s : State) (seq : ℕ)
    (ap av bp bv : List ℚ) (now : ℚ) (id : ℕ) (sd : Side) (pr v : ℤ)
    (htheo : 0 < s.theo_F)
    (hmem : Command.insert id sd pr v ∈
      (step E S s (Event.bookUpdate Instr.etf seq ap av bp bv now)).2) :
    (IMBAL_THRESHOLD < s.imbal →
      (sd = Side.sell → pr = roundup (s.theo_F + (spreadPair s.vol_E).2 * TICK_SIZE_IN_CENTS)) ∧
      (sd = Side.buy →
        pr = rounddown (s.theo_F - (spreadPair s.vol_E).1 / 2 * TICK_SIZE_IN_CENTS))) ∧
    (s.imbal < -IMBAL_THRESHOLD →
      (sd = Side.sell →
        pr = roundup (s.theo_F + (spreadPair s.vol_E).1 / 2 * TICK_SIZE_IN_CENTS)) ∧
      (sd = Side.buy →
        pr = rounddown (s.theo_F - (spreadPair s.vol_E).2 * TICK_SIZE_IN_CENTS))) ∧
    (-IMBAL_THRESHOLD ≤ s.imbal → s.imbal ≤ IMBAL_THRESHOLD →
      (sd = Side.sell →
        pr = roundup (s.theo_F + (spreadPair s.vol_E).1 / 2 * TICK_SIZE_IN_CENTS)) ∧
      (sd = Side.buy →
        pr = rounddown (s.theo_F - (spreadPair s.vol_E).1 / 2 * TICK_SIZE_IN_CENTS))) := by
  obtain ⟨hF, hI, hV, hP⟩ := etfSignalUpdate_frame E S ap av bp bv s
  have hne : (etfSignalUpdate E S ap av bp bv s).theo_F ≠ 0 := by
    rw [hF]; exact ne_of_gt htheo
  have hmem' : Command.insert id sd pr v ∈
      (quoteStep now
        (newQuotePrices (spreadPair s.vol_E).1 (spreadPair s.vol_E).2 s.theo_F s.imbal).2
        (newQuotePrices (spreadPair s.vol_E).1 (spreadPair s.vol_E).2 s.theo_F s.imbal).1
        (newVolumes E s.position).1 (newVolumes E s.position).2
        (etfSignalUpdate E S ap av bp bv s)).2 := by
    simpa [step, onBookUpdate, hF, hI, hV, hP, htheo.ne'] using hmem
  have hd := quoteStep_insert_mem hmem'
  refine ⟨fun hr => ⟨fun hsd => ?_, fun hsd => ?_⟩, fun hr => ⟨fun hsd => ?_, fun hsd => ?_⟩,
    fun hr1 hr2 => ⟨fun hsd => ?_, fun hsd => ?_⟩⟩ <;>
    [simp only [newQuotePrices, if_pos hr] at hd;
     simp only [newQuotePrices, if_pos hr] at hd;
     simp only [newQuotePrices,
       if_neg (not_lt.mpr (hr.le.trans
         (show -IMBAL_THRESHOLD ≤ IMBAL_THRESHOLD by norm_num [IMBAL_THRESHOLD]))), if_pos hr] at hd;
     simp only [newQuotePrices,
       if_neg (not_lt.mpr (hr.le.trans
         (show -IMBAL_THRESHOLD ≤ IMBAL_THRESHOLD by norm_num [IMBAL_THRESHOLD]))), if_pos hr] at hd;
     simp only [newQuotePrices, if_neg (not_lt.mpr hr2), if_neg (not_lt.mpr hr1)] at hd;
     simp only [newQuotePrices, if_neg (not_lt.mpr hr2), if_neg (not_lt.mpr hr1)] at hd] <;>
    rcases hd with ⟨h1, h2, h3⟩ | ⟨h1, h2, h3⟩ <;> simp_all

/-- The live-id bookkeeping invariant: the id counter has been initialised,
the zero sentinel is never a tracked id, and every tracked live id other than
the one currently in the matching slot already has a cancel command issued
among the accumulated outbound commands. -/
def LiveInv (s : State) (cs : List Command) : Prop :=
  1 ≤ s.next_id ∧ 0 ∉ s.bids ∧ 0 ∉ s.asks ∧
  (∀ id ∈ s.bids, id = s.bid_id ∨ Command.cancel id ∈ cs) ∧
  (∀ id ∈ s.asks, id = s.ask_id ∨ Command.cancel id ∈ cs)

/-- Helper: the invariant is monotone in the accumulated command list. -/
theorem LiveInv_mono {s : State} {cs : List Command} (ds : List Command) (h : LiveInv s cs) :
    LiveInv s (cs ++ ds) := by
  obtain ⟨h1, h2, h3, h4, h5⟩ := h
  exact ⟨h1, h2, h3,
    fun id hid => (h4 id hid).imp_right fun hc => List.mem_append.mpr (Or.inl hc),
    fun id hid => (h5 id hid).imp_right fun hc => List.mem_append.mpr (Or.inl hc)⟩

/-- Helper: the insert-bid block preserves the live-id invariant when run, as
in the source, from a state whose bid slot is empty. -/
theorem tryBid_live {s : State} {cs : List Command} (t : ℚ) (nbp nbv : ℤ)
    (hb : s.bid_id = 0) (h : LiveInv s cs) :
    LiveInv (tryBid t nbp nbv s).1 (cs ++ (tryBid t nbp nbv s).2) := by
  obtain ⟨h1, h2, h3, h4, h5⟩ := h
  by_cases hc : nbp ≠ s.bid_price ∧ nbp ≠ 0
  · simp only [tryBid, if_pos hc]
    refine ⟨Nat.le_succ_of_le h1, ?_, h3, ?_, ?_⟩
    · simp only [Finset.mem_insert]
      rintro (h0 | h0)
      · omega
      · exact h2 h0
    · intro id hid
      rcases Finset.mem_insert.mp hid with h0 | h0
      · exact Or.inl h0
      · refine Or.inr ?_
        rcases h4 id h0 with he | he
        · exact absurd (he.trans hb) (fun hz => h2 (hz ▸ h0))
        · exact List.mem_append.mpr (Or.inl he)
    · intro id hid
      simp only at hid ⊢
      exact (h5 id hid).imp_right fun hc2 => List.mem_append.mpr (Or.inl hc2)
  · simp only [tryBid, if_neg hc, List.append_nil]
    exact ⟨h1, h2, h3, h4, h5⟩

/-- Helper: the insert-ask block preserves the live-id invariant when run, as
in the source, from a state whose ask slot is empty. -/
theorem tryAsk_live {s : State} {cs : List Command} (t : ℚ) (nap nav : ℤ)
    (ha : s.ask_id = 0) (h : LiveInv s cs) :
    LiveInv (tryAsk t nap nav s).1 (cs ++ (tryAsk t nap nav s).2) := by
  obtain ⟨h1, h2, h3, h4, h5⟩ := h
  by_cases hc : nap ≠ s.ask_price ∧ nap ≠ 0
  · simp only [tryAsk, if_pos hc]
    refine ⟨Nat.le_succ_of_le h1, h2, ?_, ?_, ?_⟩
    · simp only [Finset.mem_insert]
      rintro (h0 | h0)
      · omega
      · exact h3 h0
    · intro id hid
      simp only at hid ⊢
      exact (h4 id hid).imp_right fun hc2 => List.mem_append.mpr (Or.inl hc2)
    · intro id hid
      rcases Finset.mem_insert.mp hid with h0 | h0
      · exact Or.inl h0
      · refine Or.inr ?_
        rcases h5 id h0 with he | he
        · exact absurd (he.trans ha) (fun hz => h3 (hz ▸ h0))
        · exact List.mem_append.mpr (Or.inl he)
  · simp only [tryAsk, if_neg hc, List.append_nil]
    exact ⟨h1, h2, h3, h4, h5⟩

/-- Helper: the insert-ask block does not change the bid slot. -/
theorem tryBid_ask_id (t : ℚ) (nbp nbv : ℤ) (s : State) :
    (tryBid t nbp nbv s).1.ask_id = s.ask_id := by
  unfold tryBid
  split_ifs <;> rfl

/-- Helper: both insert blocks in sequence preserve the live-id invariant when
run from a state whose two slots are empty. -/
theorem tryBoth_live {s : State} {cs : List Command} (t : ℚ) (nbp nap nbv nav : ℤ)
    (hb : s.bid_id = 0) (ha : s.ask_id = 0) (h : LiveInv s cs) :
    LiveInv (tryBoth t nbp nap nbv nav s).1 (cs ++ (tryBoth t nbp nap nbv nav s).2) := by
  have h1 := tryBid_live t nbp nbv hb h
  have h2 := @tryAsk_live (tryBid t nbp nbv s).1 (cs ++ (tryBid t nbp nbv s).2) t nap nav
    (by rw [tryBid_ask_id]; exact ha) h1
  unfold tryBoth
  simpa [List.append_assoc] using h2

/-- Helper: clearing a slot after appending a cancel command for the id it
held preserves the live-id invariant (the cancelled id is now covered by the
freshly issued cancel). -/
theorem LiveInv_cancel_bid {s : State} {cs : List Command} (h : LiveInv s cs) :
    LiveInv { s with bid_id := 0 } (cs ++ [Command.cancel s.bid_id]) := by
  obtain ⟨h1, h2, h3, h4, h5⟩ := h
  refine ⟨h1, h2, h3, ?_, ?_⟩
  · intro id hid
    rcases h4 id hid with he | he
    · exact Or.inr (List.mem_append.mpr (Or.inr (by simp [he])))
    · exact Or.inr (List.mem_append.mpr (Or.inl he))
  · intro id hid
    exact (h5 id hid).imp_right fun hc => List.mem_append.mpr (Or.inl hc)

/-- Helper: the ask-side analogue of `LiveInv_cancel_bid`. -/
theorem LiveInv_cancel_ask {s : State} {cs : List Command} (h : LiveInv s cs) :
    LiveInv { s with ask_id := 0 } (cs ++ [Command.cancel s.ask_id]) := by
  obtain ⟨h1, h2, h3, h4, h5⟩ := h
  refine ⟨h1, h2, h3, ?_, ?_⟩
  · intro id hid
    exact (h4 id hid).imp_right fun hc => List.mem_append.mpr (Or.inl hc)
  · intro id hid
    rcases h5 id hid with he | he
    · exact Or.inr (List.mem_append.mpr (Or.inr (by simp [he])))
    · exact Or.inr (List.mem_append.mpr (Or.inl he))

/-- Helper: clearing both slots after appending cancels for both held ids
preserves the live-id invariant. -/
theorem LiveInv_cancel_both {s : State} {cs : List Command} (h : LiveInv s cs) :
    LiveInv { s with bid_id := 0, ask_id := 0 }
      (cs ++ [Command.cancel s.bid_id, Command.cancel s.ask_id]) := by
  obtain ⟨h1, h2, h3, h4, h5⟩ := h
  refine ⟨h1, h2, h3, ?_, ?_⟩
  · intro id hid
    rcases h4 id hid with he | he
    · exact Or.inr (List.mem_append.mpr (Or.inr (by simp [he])))
    · exact Or.inr (List.mem_append.mpr (Or.inl he))
  · intro id hid
    rcases h5 id hid with he | he
    · exact Or.inr (List.mem_append.mpr (Or.inr (by simp [he])))
    · exact Or.inr (List.mem_append.mpr (Or.inl he))

/-- Helper: one order-management invocation preserves the live-id invariant. -/
theorem quoteStep_live {s : State} {cs : List Command} (t : ℚ) (nbp nap nbv nav : ℤ)
    (h : LiveInv s cs) :
    LiveInv (quoteStep t nbp nap nbv nav s).1 (cs ++ (quoteStep t nbp nap nbv nav s).2) := by
  by_cases c1 : s.bid_id = 0 ∧ s.ask_id = 0
  · simp only [quoteStep, if_pos c1]
    exact tryBoth_live t nbp nap nbv nav c1.1 c1.2 h
  · by_cases c2 : s.bid_id = 0 ∧ s.ask_id ≠ 0
    · simp only [quoteStep, if_neg c1, if_pos c2]
      split_ifs with g
      · have hstep := @tryBoth_live { s with ask_id := 0 }
          (cs ++ [Command.cancel s.ask_id]) t nbp nap nbv nav c2.1 rfl
          (LiveInv_cancel_ask h)
        simpa [List.append_assoc] using hstep
      · simpa using LiveInv_mono [] h
    · by_cases c3 : s.bid_id ≠ 0 ∧ s.ask_id = 0
      · simp only [quoteStep, if_neg c1, if_neg c2, if_pos c3]
        split_ifs with g
        · have hstep := @tryBoth_live { s with bid_id := 0 }
            (cs ++ [Command.cancel s.bid_id]) t nbp nap nbv nav rfl c3.2
            (LiveInv_cancel_bid h)
          simpa [List.append_assoc] using hstep
        · simpa using LiveInv_mono [] h
      · simp only [quoteStep, if_neg c1, if_neg c2, if_neg c3]
        split_ifs with g
        · have hstep := @tryBoth_live { s with bid_id := 0, ask_id := 0 }
            (cs ++ [Command.cancel s.bid_id, Command.cancel s.ask_id])
            t nbp nap nbv nav rfl rfl (LiveInv_cancel_both h)
          simpa [List.append_assoc] using hstep
        · simpa using LiveInv_mono [] h

/-- Helper: the FUTURE-branch signal update does not touch the order-tracking
fields (nor `vol_E`). -/
theorem futureUpdate_frame (E : ℚ → ℚ) (S : List ℚ → ℚ) (ap av bp bv : List ℚ) (s : State) :
    (futureUpdate E S ap av bp bv s).next_id = s.next_id ∧
    (futureUpdate E S ap av bp bv s).bids = s.bids ∧
    (futureUpdate E S ap av bp bv s).asks = s.asks ∧
    (futureUpdate E S ap av bp bv s).bid_id = s.bid_id ∧
    (futureUpdate E S ap av bp bv s).ask_id = s.ask_id ∧
    (futureUpdate E S ap av bp bv s).vol_E = s.vol_E := by
  unfold futureUpdate
  dsimp only
  split_ifs <;> simp

/-- Helper: the ETF-branch signal update does not touch the order-tracking
fields either. -/
theorem etfSignalUpdate_order_frame (E : ℚ → ℚ) (S : List ℚ → ℚ) (ap av bp bv : List ℚ)
    (s : State) :
    (etfSignalUpdate E S ap av bp bv s).next_id = s.next_id ∧
    (etfSignalUpdate E S ap av bp bv s).bids = s.bids ∧
    (etfSignalUpdate E S ap av bp bv s).asks = s.asks ∧
    (etfSignalUpdate E S ap av bp bv s).bid_id = s.bid_id ∧
    (etfSignalUpdate E S ap av bp bv s).ask_id = s.ask_id := by
  unfold etfSignalUpdate
  dsimp only
  split_ifs <;> simp

/-- Helper: the live-id invariant only mentions the order-tracking fields, so
it transfers across any state change that fixes them. -/
theorem LiveInv_of_frame {s s' : State} {cs : List Command}
    (hn : s'.next_id = s.next_id) (hb : s'.bids = s.bids) (ha : s'.asks = s.asks)
    (hbi : s'.bid_id = s.bid_id) (hai : s'.ask_id = s.ask_id) (h : LiveInv s cs) :
    LiveInv s' cs := by
  obtain ⟨h1, h2, h3, h4, h5⟩ := h
  exact ⟨hn ▸ h1, hb ▸ h2, ha ▸ h3, by rw [hb, hbi]; exact h4, by rw [ha, hai]; exact h5⟩

/-- Helper: the status handler preserves the live-id invariant. -/
theorem onStatus_live {s : State} {cs : List Command} (id : ℕ) (fv rv fees : ℤ) (now : ℚ)
    (h : LiveInv s cs) :
    LiveInv (onStatus s id fv rv fees now).1 (cs ++ (onStatus s id fv rv fees now).2) := by
  obtain ⟨h1, h2, h3, h4, h5⟩ := h
  simp only [onStatus]
  split_ifs with hrv hbid hask
  · refine LiveInv_mono _ ⟨h1, ?_, ?_, ?_, ?_⟩
    · exact fun hm => h2 (Finset.mem_of_mem_erase hm)
    · exact fun hm => h3 (Finset.mem_of_mem_erase hm)
    · intro i hi
      have hne := Finset.ne_of_mem_erase hi
      rcases h4 i (Finset.mem_of_mem_erase hi) with he | he
      · exact absurd (he.trans hbid.symm) hne
      · exact Or.inr he
    · intro i hi
      exact (h5 i (Finset.mem_of_mem_erase hi)).imp_left (fun hx => hx)
  · refine LiveInv_mono _ ⟨h1, ?_, ?_, ?_, ?_⟩
    · exact fun hm => h2 (Finset.mem_of_mem_erase hm)
    · exact fun hm => h3 (Finset.mem_of_mem_erase hm)
    · intro i hi
      exact (h4 i (Finset.mem_of_mem_erase hi)).imp_left (fun hx => hx)
    · intro i hi
      have hne := Finset.ne_of_mem_erase hi
      rcases h5 i (Finset.mem_of_mem_erase hi) with he | he
      · exact absurd (he.trans hask.symm) hne
      · exact Or.inr he
  · refine LiveInv_mono _ ⟨h1, ?_, ?_, ?_, ?_⟩
    · exact fun hm => h2 (Finset.mem_of_mem_erase hm)
    · exact fun hm => h3 (Finset.mem_of_mem_erase hm)
    · intro i hi
      exact (h4 i (Finset.mem_of_mem_erase hi)).imp_left (fun hx => hx)
    · intro i hi
      exact (h5 i (Finset.mem_of_mem_erase hi)).imp_left (fun hx => hx)
  · simpa using LiveInv_mono [] ⟨h1, h2, h3, h4, h5⟩

/-- Helper: every event handler preserves the live-id invariant. -/
theorem step_live (E : ℚ → ℚ) (S : List ℚ → ℚ) {s : State} {cs : List Command} (e : Event)
    (h : LiveInv s cs) : LiveInv (step E S s e).1 (cs ++ (step E S s e).2) := by
  obtain ⟨h1, h2, h3, h4, h5⟩ := h
  cases e with
  | bookUpdate instrument seq ap av bp bv now =>
      cases instrument with
      | future =>
          simp only [step, onBookUpdate, List.append_nil]
          obtain ⟨f1, f2, f3, f4, f5, _⟩ := futureUpdate_frame E S ap av bp bv s
          exact LiveInv_of_frame f1 f2 f3 f4 f5 ⟨h1, h2, h3, h4, h5⟩
      | etf =>
          simp only [step, onBookUpdate]
          obtain ⟨f1, f2, f3, f4, f5⟩ := etfSignalUpdate_order_frame E S ap av bp bv s
          have hs1 : LiveInv (etfSignalUpdate E S ap av bp bv s) cs :=
            LiveInv_of_frame f1 f2 f3 f4 f5 ⟨h1, h2, h3, h4, h5⟩
          split_ifs with ht
          · exact quoteStep_live _ _ _ _ _ hs1
          · simpa using LiveInv_mono [] hs1
  | tradeTicks => simpa [step] using LiveInv_mono [] ⟨h1, h2, h3, h4, h5⟩
  | orderFilled id price volume =>
      simp only [step, onFilled]
      split_ifs
      · exact LiveInv_mono _ ⟨Nat.le_succ_of_le h1, h2, h3, h4, h5⟩
      · exact LiveInv_mono _ ⟨Nat.le_succ_of_le h1, h2, h3, h4, h5⟩
      · simpa using LiveInv_mono [] ⟨h1, h2, h3, h4, h5⟩
  | orderStatus id fv rv fees now =>
      exact onStatus_live id fv rv fees now ⟨h1, h2, h3, h4, h5⟩
  | hedgeFilled => simpa [step] using LiveInv_mono [] ⟨h1, h2, h3, h4, h5⟩
  | error id now =>
      simp only [step, onError]
      split_ifs with hc
      · exact onStatus_live id 0 0 0 now ⟨h1, h2, h3, h4, h5⟩
      · simpa using LiveInv_mono [] ⟨h1, h2, h3, h4, h5⟩

/-- Helper: processing any event list preserves the live-id invariant. -/
theorem runFrom_live (E : ℚ → ℚ) (S : List ℚ → ℚ) (evs : List Event) :
    ∀ (s : State) (cs : List Command), LiveInv s cs →
      LiveInv (runFrom E S s evs).1 (cs ++ (runFrom E S s evs).2) := by
  induction evs with
  | nil => intro s cs h; simpa [runFrom] using h
  | cons e es ih =>
      intro s cs h
      simp only [runFrom]
      have h2 := ih (step E S s e).1 (cs ++ (step E S s e).2) (step_live E S e h)
      simpa [List.append_assoc] using h2

/-- C1 (amended): after any sequence of processed events, at most one live id
per side has no cancel command issued against it — every id in the live-bid
(live-ask) set other than the id currently held in the bid (ask) slot already
has a cancel among the issued commands, and 0 is never tracked.  (The live set
itself can transiently hold more than one id: after a cancel plus
same-invocation re-insert the old id stays live until its terminal status, see
the counterexample.) -/
theorem C1_live_ids_amended (E : ℚ → ℚ) (S : List ℚ → ℚ) (events : List Event) :
    1 ≤ (run E S events).1.next_id ∧
    0 ∉ (run E S events).1.bids ∧ 0 ∉ (run E S events).1.asks ∧
    (∀ id ∈ (run E S events).1.bids,
      id = (run E S events).1.bid_id ∨ Command.cancel id ∈ (run E S events).2) ∧
    (∀ id ∈ (run E S events).1.asks,
      id = (run E S events).1.ask_id ∨ Command.cancel id ∈ (run E S events).2) := by
  have h0 : LiveInv initState [] := by
    refine ⟨by norm_num [initState], by simp [initState], by simp [initState], ?_, ?_⟩ <;>
      simp [initState]
  have h := runFrom_live E S events initState [] h0
  simpa [run, LiveInv] using h

/-- C1 witness: the amended live-id bookkeeping property applied to the empty
event list. -/
theorem C1_live_ids_witness :
    1 ≤ (run Eone Szero []).1.next_id ∧
    0 ∉ (run Eone Szero []).1.bids ∧ 0 ∉ (run Eone Szero []).1.asks ∧
    (∀ id ∈ (run Eone Szero []).1.bids,
      id = (run Eone Szero []).1.bid_id ∨ Command.cancel id ∈ (run Eone Szero []).2) ∧
    (∀ id ∈ (run Eone Szero []).1.asks,
      id = (run Eone Szero []).1.ask_id ∨ Command.cancel id ∈ (run Eone Szero []).2) :=
  C1_live_ids_amended Eone Szero []

/-- Helper: concrete evaluation of the weighted mid on a symmetric
level-0-only book at 10000 (the weight stand-in only multiplies non-zero
volume at level 0, where `exp(0) = 1`). -/
theorem wm_10000 : weighted_mid Eone [10, 0, 0, 0, 0] [10000, 0, 0, 0, 0]
    [10, 0, 0, 0, 0] [10000, 0, 0, 0, 0] = 10000 := by
  norm_num [weighted_mid, wsums, Eone]

/-- Helper: concrete evaluation of the weighted mid on a symmetric
level-0-only book at 10600. -/
theorem wm_10600 : weighted_mid Eone [10, 0, 0, 0, 0] [10600, 0, 0, 0, 0]
    [10, 0, 0, 0, 0] [10600, 0, 0, 0, 0] = 10600 := by
  norm_num [weighted_mid, wsums, Eone]

/-- Helper: concrete evaluation of the imbalance on equal level-0-only
volumes. -/
theorem imbal_balanced : imbalanceOf Eone [10, 0, 0, 0, 0] [10, 0, 0, 0, 0] = 0 := by
  norm_num [imbalanceOf, wsums, Eone]

/-- Helper: the spread selection at zero volatility yields the tight pair. -/
theorem spreadPair_zero : spreadPair 0 = (4, 4) := by
  norm_num [spreadPair, VOL1]

/-- Helper: concrete evaluation of the quote prices in the neutral regime at
theo 10000 with the tight pair. -/
theorem nqp_10000 : newQuotePrices 4 4 10000 0 = (10200, 9800) := by
  rw [newQuotePrices, if_neg (by norm_num [IMBAL_THRESHOLD]),
    if_neg (by norm_num [IMBAL_THRESHOLD])]
  norm_num [roundup, rounddown, TICK_SIZE_IN_CENTS]

/-- Helper: concrete evaluation of the quote prices in the neutral regime at
theo 10600 with the tight pair. -/
theorem nqp_10600 : newQuotePrices 4 4 10600 0 = (10800, 10400) := by
  rw [newQuotePrices, if_neg (by norm_num [IMBAL_THRESHOLD]),
    if_neg (by norm_num [IMBAL_THRESHOLD])]
  norm_num [roundup, rounddown, TICK_SIZE_IN_CENTS]

/-- Helper: concrete evaluation of the quote volumes at a flat position. -/
theorem newVolumes_flat : newVolumes Eone 0 = (50, 50) := by
  have hpr : pyRound 50 = 50 := pyRound_eq 50 50 (by norm_num) (by norm_num) (by norm_num)
  rw [newVolumes, if_pos (by norm_num : (0 : ℤ) ≥ 0)]
  norm_num [Eone, LOT_SIZE, hpr]

/-- A concrete event trace: a FUTURE snapshot (theo 10000), an ETF snapshot at
time 0 (quotes id 1 and id 2), a FUTURE snapshot moving theo to 10600, and an
ETF snapshot at time 1 — past the requote interval — which cancels ids 1 and 2
and immediately re-inserts ids 3 and 4 in the same handler invocation.  No
terminal status for id 1 or 2 has been processed, so all four ids are still
live. -/
def requoteTrace : List Event :=
  [Event.bookUpdate Instr.future 1 [10000, 0, 0, 0, 0] [10, 0, 0, 0, 0]
     [10000, 0, 0, 0, 0] [10, 0, 0, 0, 0] 0,
   Event.bookUpdate Instr.etf 1 [10000, 0, 0, 0, 0] [10, 0, 0, 0, 0]
     [10000, 0, 0, 0, 0] [10, 0, 0, 0, 0] 0,
   Event.bookUpdate Instr.future 2 [10600, 0, 0, 0, 0] [10, 0, 0, 0, 0]
     [10600, 0, 0, 0, 0] [10, 0, 0, 0, 0] (1 / 2),
   Event.bookUpdate Instr.etf 2 [10000, 0, 0, 0, 0] [10, 0, 0, 0, 0]
     [10000, 0, 0, 0, 0] [10, 0, 0, 0, 0] 1]

set_option maxHeartbeats 1000000 in
/-- C1 counterexample: after the cancel-and-requote trace the live-bid id set
holds two ids (the cancelled-but-unconfirmed id 1 and the fresh id 3), so "the
set of live bid ids still contains at most one element" fails on the code. -/
theorem C1_live_ids_counterexample :
    ¬(run Eone Szero requoteTrace).1.bids.card ≤ 1 := by
  have hbids : (run Eone Szero requoteTrace).1.bids = insert 3 ({1} : Finset ℕ) := by
    norm_num [run, runFrom, requoteTrace, step, onBookUpdate, futureUpdate, etfSignalUpdate,
      wm_10000, wm_10600, imbal_balanced, tsAppend, ROLLING_WNDW, spreadPair_zero,
      nqp_10000, nqp_10600, newVolumes_flat, quoteStep, tryBoth, tryBid, tryAsk,
      WAIT_TIME, UPDATE_TIME, initState, Szero]
  rw [hbids]
  decide

/-- A concrete controller state with a live theoretical price (10000), flat
position and neutral imbalance, used to exercise the quoting path. -/
def c5State : State := { initState with theo_F := 10000 }

/-- A concrete ETF book update (empty book, handled at time 0). -/
def c5Event : Event := Event.bookUpdate Instr.etf 1 [] [] [] [] 0

/-- C5 witness: the skew-price property applied at `c5State`, where the ETF
update inserts a bid priced by the neutral-regime formula
`rounddown(theo - K1/2 * tick) = 9800`. -/
theorem C5_skew_prices_witness :
    0 < c5State.theo_F ∧
    Command.insert 1 Side.buy 9800 50 ∈ (step Eone Szero c5State c5Event).2 ∧
    (9800 : ℤ) =
      rounddown (c5State.theo_F - (spreadPair c5State.vol_E).1 / 2 * TICK_SIZE_IN_CENTS) := by
  have h1 : 0 < c5State.theo_F := by norm_num [c5State, initState]
  have h2 : Command.insert 1 Side.buy 9800 50 ∈ (step Eone Szero c5State c5Event).2 := by
    norm_num [c5State, c5Event, step, onBookUpdate, etfSignalUpdate, weighted_mid, wsums,
      spreadPair_zero, nqp_10000, newVolumes_flat, quoteStep, tryBoth, tryBid, tryAsk,
      initState, Szero]
  refine ⟨h1, h2, ?_⟩
  exact ((C5_skew_prices Eone Szero c5State 1 [] [] [] [] 0 1 Side.buy 9800 50 h1 h2).2.2
    (by norm_num [c5State, initState, IMBAL_THRESHOLD])
    (by norm_num [c5State, initState, IMBAL_THRESHOLD])).2 rfl

/-- Helper: the insert-bid block never writes `vol_E`. -/
theorem tryBid_vol_E (t : ℚ) (nbp nbv : ℤ) (s : State) :
    (tryBid t nbp nbv s).1.vol_E = s.vol_E := by
  unfold tryBid
  split_ifs <;> rfl

/-- Helper: the insert-ask block never writes `vol_E`. -/
theorem tryAsk_vol_E (t : ℚ) (nap nav : ℤ) (s : State) :
    (tryAsk t nap nav s).1.vol_E = s.vol_E := by
  unfold tryAsk
  split_ifs <;> rfl

/-- Helper: the order-management block never writes `vol_E`. -/
theorem quoteStep_vol_E (t : ℚ) (nbp nap nbv nav : ℤ) (s : State) :
    (quoteStep t nbp nap nbv nav s).1.vol_E = s.vol_E := by
  unfold quoteStep tryBoth
  split_ifs <;> simp [tryBid_vol_E, tryAsk_vol_E]

/-- Helper: the status handler never writes `vol_E`. -/
theorem onStatus_vol_E (s : State) (id : ℕ) (fv rv fees : ℤ) (now : ℚ) :
    (onStatus s id fv rv fees now).1.vol_E = s.vol_E := by
  unfold onStatus
  split_ifs <;> rfl

/-- Helper: no event handler ever writes `vol_E` — the volatility threshold
comparison reads a field that no handler assigns (the ETF window's standard
deviation is stored into `vol_F` instead, `autotrader.py` line 190). -/
theorem step_vol_E (E : ℚ → ℚ) (S : List ℚ → ℚ) (s : State) (e : Event) :
    (step E S s e).1.vol_E = s.vol_E := by
  cases e with
  | bookUpdate instrument seq ap av bp bv now =>
      cases instrument with
      | future =>
          simpa [step, onBookUpdate] using (futureUpdate_frame E S ap av bp bv s).2.2.2.2.2
      | etf =>
          simp only [step, onBookUpdate]
          split_ifs with ht
          · rw [quoteStep_vol_E]
            exact (etfSignalUpdate_frame E S ap av bp bv s).2.2.1
          · exact (etfSignalUpdate_frame E S ap av bp bv s).2.2.1
  | tradeTicks => rfl
  | orderFilled id price volume =>
      simp only [step, onFilled]
      split_ifs <;> rfl
  | orderStatus id fv rv fees now => exact onStatus_vol_E s id fv rv fees now
  | hedgeFilled => rfl
  | error id now =>
      simp only [step, onError]
      split_ifs with hc
      · exact onStatus_vol_E s id 0 0 0 now
      · rfl

/-- Helper: across any event list, `vol_E` keeps its starting value. -/
theorem runFrom_vol_E (E : ℚ → ℚ) (S : List ℚ → ℚ) (evs : List Event) :
    ∀ s : State, (runFrom E S s evs).1.vol_E = s.vol_E := by
  induction evs with
  | nil => intro s; rfl
  | cons e es ih =>
      intro s
      simp only [runFrom]
      rw [ih, step_vol_E]

/-- Helper: concrete evaluation of the weighted mid on a symmetric
level-0-only book at 20000. -/
theorem wm_20000 : weighted_mid Eone [10, 0, 0, 0, 0] [20000, 0, 0, 0, 0]
    [10, 0, 0, 0, 0] [20000, 0, 0, 0, 0] = 20000 := by
  norm_num [weighted_mid, wsums, Eone]

/-- A concrete trace driving the ETF rolling window to a high-volatility
state: one FUTURE snapshot (theo 10000) and five ETF snapshots whose weighted
mids are 10000, 10000, 20000, 10000, 20000, all at time 0 (so after the first
quote pair rests, the requote gate never opens and the later updates only feed
the window).  After the fifth ETF update the window has been popped once and
holds `[10000, 20000, 10000, 20000]`. -/
def volTrace : List Event :=
  [Event.bookUpdate Instr.future 1 [10000, 0, 0, 0, 0] [10, 0, 0, 0, 0]
     [10000, 0, 0, 0, 0] [10, 0, 0, 0, 0] 0,
   Event.bookUpdate Instr.etf 1 [10000, 0, 0, 0, 0] [10, 0, 0, 0, 0]
     [10000, 0, 0, 0, 0] [10, 0, 0, 0, 0] 0,
   Event.bookUpdate Instr.etf 2 [10000, 0, 0, 0, 0] [10, 0, 0, 0, 0]
     [10000, 0, 0, 0, 0] [10, 0, 0, 0, 0] 0,
   Event.bookUpdate Instr.etf 3 [20000, 0, 0, 0, 0] [10, 0, 0, 0, 0]
     [20000, 0, 0, 0, 0] [10, 0, 0, 0, 0] 0,
   Event.bookUpdate Instr.etf 4 [10000, 0, 0, 0, 0] [10, 0, 0, 0, 0]
     [10000, 0, 0, 0, 0] [10, 0, 0, 0, 0] 0,
   Event.bookUpdate Instr.etf 5 [20000, 0, 0, 0, 0] [10, 0, 0, 0, 0]
     [20000, 0, 0, 0, 0] [10, 0, 0, 0, 0] 0]

set_option maxHeartbeats 1600000 in
/-- C4: the volatility-regime claim fails on the code because the regime
comparison reads `vol_E`, which no handler ever writes (the ETF window's
standard deviation is stored into `vol_F` instead): after the `volTrace`
events the sliding window is `[10000, 20000, 10000, 20000]`, whose population
standard deviation is 5000 — far above the top threshold `VOL2 = 100`, where
the claim requires the wide pair (8, 8) — yet the selection still evaluates on
the never-written `vol_E = 0` and yields the tight pair (4, 4). -/
theorem C4_regime_dead_volatility :
    (∀ (E : ℚ → ℚ) (S : List ℚ → ℚ) (events : List Event),
      (run E S events).1.vol_E = 0) ∧
    (run Eone Szero volTrace).1.wpr_E = [10000, 20000, 10000, 20000] ∧
    popVar [10000, 20000, 10000, 20000] = 5000 ^ 2 ∧
    VOL2 < 5000 ∧
    spreadPair ((run Eone Szero volTrace).1.vol_E) = (4, 4) ∧
    spreadPair 5000 = (8, 8) := by
  have hvol : ∀ (E : ℚ → ℚ) (S : List ℚ → ℚ) (events : List Event),
      (run E S events).1.vol_E = 0 := by
    intro E S events
    rw [run, runFrom_vol_E]
    rfl
  refine ⟨hvol, ?_, ?_, ?_, ?_, ?_⟩
  · norm_num [run, runFrom, volTrace, step, onBookUpdate, futureUpdate, etfSignalUpdate,
      wm_10000, wm_20000, imbal_balanced, tsAppend, ROLLING_WNDW, spreadPair_zero,
      nqp_10000, newVolumes_flat, quoteStep, tryBoth, tryBid, tryAsk,
      WAIT_TIME, UPDATE_TIME, initState, Szero]
  · norm_num [popVar]
  · norm_num [VOL2]
  · rw [hvol]
    exact spreadPair_zero
  · norm_num [spreadPair, VOL1, VOL2]

/-- C8 witness: the error-equals-terminal-status property applied at a state
tracking bid id 1 in its live set and slot. -/
theorem C8_error_equiv_status_witness :
    onError { initState with bids := {1}, bid_id := 1 } 1 6 =
      onStatus { initState with bids := {1}, bid_id := 1 } 1 0 0 0 6 ∧
    (1 : ℕ) ∉ (onError { initState with bids := {1}, bid_id := 1 } 1 6).1.bids ∧
    (1 : ℕ) ∉ (onError { initState with bids := {1}, bid_id := 1 } 1 6).1.asks :=
  (C8_error_equiv_status { initState with bids := {1}, bid_id := 1 } 1 6).1
    (by norm_num) (Or.inl (by simp))

end RTG
